import Mathlib

/-!
Shallow embedding of the resilient concurrent scraping engine of the
competitive-intelligence repository, and proofs settling the frozen claims
about it.  Each definition is translated from the named Python source file;
time stamps and delays are modelled as rationals, machine randomness and
page-processor behaviour as explicit input oracles, and the lock-guarded
critical sections of the session pool as atomic steps of a transition
relation.
-/

/- ## Circuit breaker — src/utils/circuit_breaker.py -/

/-- The three states of `SeleniumCircuitBreaker.state` (strings in the source). -/
inductive BreakerState
  | closed
  | opened
  | halfOpen
  deriving DecidableEq, Repr

/-- State of `SeleniumCircuitBreaker` (src/utils/circuit_breaker.py, lines 4-13). -/
structure SeleniumCircuitBreaker where
  threshold : Nat
  reset_timeout : ℚ
  failure_count : Nat
  last_failure_time : Option ℚ
  state : BreakerState
  deriving DecidableEq, Repr

/-- Model of `SeleniumCircuitBreaker.__init__`. -/
def SeleniumCircuitBreaker.init (threshold : Nat) (reset_timeout : ℚ) :
    SeleniumCircuitBreaker :=
  { threshold := threshold
    reset_timeout := reset_timeout
    failure_count := 0
    last_failure_time := none
    state := .closed }

/-- Model of `record_failure` (lines 15-19): increment the count, stamp the time of the
failure, and open once the count reaches the threshold. -/
def SeleniumCircuitBreaker.record_failure (b : SeleniumCircuitBreaker) (now : ℚ) :
    SeleniumCircuitBreaker :=
  let b := { b with failure_count := b.failure_count + 1, last_failure_time := some now }
  if b.threshold ≤ b.failure_count then { b with state := .opened } else b

/-- Model of `record_success` (lines 21-24): reset the count and close. -/
def SeleniumCircuitBreaker.record_success (b : SeleniumCircuitBreaker) :
    SeleniumCircuitBreaker :=
  { b with failure_count := 0, last_failure_time := none, state := .closed }

/-- Model of `can_execute` (lines 26-34).  Returns the boolean answer and the
(possibly updated) breaker, since the OPEN branch may flip to HALF_OPEN. -/
def SeleniumCircuitBreaker.can_execute (b : SeleniumCircuitBreaker) (now : ℚ) :
    Bool × SeleniumCircuitBreaker :=
  match b.state with
  | .opened =>
    match b.last_failure_time with
    | none => (false, b)
    | some t =>
      if b.reset_timeout < now - t then (true, { b with state := .halfOpen })
      else (false, b)
  | _ => (true, b)

/- ## Adaptive pacing — src/scrapers/adaptive_scraper.py -/

/-- The pacing fields of `AdaptiveScraper` (`delay`, `min_delay`, `max_delay`,
initialised in `__init__` to 0.5, 0.2, 5.0). -/
structure AdaptiveScraper where
  delay : ℚ
  min_delay : ℚ
  max_delay : ℚ
  deriving DecidableEq, Repr

/-- Model of `AdaptiveScraper._adjust_rate` (lines 112-120): on failure multiply the
delay by 1.5 capped at `max_delay`; on success with response time above 4
multiply by 1.3 capped; on success with response time below 1 multiply by 0.8
floored at `min_delay`; otherwise leave it unchanged. -/
def AdaptiveScraper.adjust_rate (a : AdaptiveScraper) (response_time : ℚ)
    (success : Bool) : AdaptiveScraper :=
  if success = false then { a with delay := min a.max_delay (a.delay * (3 / 2)) }
  else if 4 < response_time then { a with delay := min a.max_delay (a.delay * (13 / 10)) }
  else if response_time < 1 then { a with delay := max a.min_delay (a.delay * (4 / 5)) }
  else a

/- ## Proxy rotation — src/utils/protection/proxy_manager.py -/

/-- State of `ProxyManager`: the loaded pool, the rotation interval in seconds
(`rotation_interval_minutes * 60`) and the `last_rotation` stamp (0.0 at
construction). -/
structure ProxyManager where
  pool : List String
  rotation_interval : ℚ
  last_rotation : ℚ
  deriving DecidableEq, Repr

/-- Model of `ProxyManager.get_residential_proxy` (lines 38-45).  `now` models
`time.time()` and `pick` models the draw of `random.choice`, which selects
`pool[pick % len(pool)]`: the source calls `random.choice(self.pool)` on every
invocation, after refreshing `last_rotation` whenever the interval elapsed. -/
def ProxyManager.get_residential_proxy (m : ProxyManager) (now : ℚ) (pick : Nat) :
    Option String × ProxyManager :=
  if m.pool = [] then (none, m)
  else
    let m := if m.rotation_interval < now - m.last_rotation
      then { m with last_rotation := now } else m
    (m.pool.get? (pick % m.pool.length), m)

/- ## Metrics — src/base_scraper.py, class ScraperMetrics (lines 489-556) -/

/-- Mutable fields of `ScraperMetrics`; times are rationals standing for the
`datetime` stamps taken by `start`/`end`. -/
structure ScraperMetrics where
  start_time : Option ℚ
  end_time : Option ℚ
  urls_processed : Nat
  urls_failed : Nat
  total_data_points : Nat
  total_retries : Nat
  deriving DecidableEq, Repr

/-- Model of `ScraperMetrics.__init__`. -/
def ScraperMetrics.init : ScraperMetrics :=
  { start_time := none, end_time := none, urls_processed := 0, urls_failed := 0
    total_data_points := 0, total_retries := 0 }

/-- Model of `ScraperMetrics.start`: stamp the start time. -/
def ScraperMetrics.start (m : ScraperMetrics) (now : ℚ) : ScraperMetrics :=
  { m with start_time := some now }

/-- Model of `ScraperMetrics.end`: stamp the end time (`end` is reserved in Lean). -/
def ScraperMetrics.end_ (m : ScraperMetrics) (now : ℚ) : ScraperMetrics :=
  { m with end_time := some now }

/-- Model of `ScraperMetrics.record_success(data_points, retries)`. -/
def ScraperMetrics.record_success (m : ScraperMetrics) (data_points retries : Nat) :
    ScraperMetrics :=
  { m with urls_processed := m.urls_processed + 1
           total_data_points := m.total_data_points + data_points
           total_retries := m.total_retries + max retries 1 }

/-- Model of `ScraperMetrics.record_failure(retries)`. -/
def ScraperMetrics.record_failure (m : ScraperMetrics) (retries : Nat) :
    ScraperMetrics :=
  { m with urls_failed := m.urls_failed + 1
           total_retries := m.total_retries + max retries 1 }

/-- Model of `ScraperMetrics.get_duration`: defined only when both stamps are set. -/
def ScraperMetrics.get_duration (m : ScraperMetrics) : Option ℚ :=
  match m.start_time, m.end_time with
  | some s, some e => some (e - s)
  | _, _ => none

/-- The dictionary returned by `ScraperMetrics.get_summary`. -/
structure MetricsSummary where
  urls_processed : Nat
  urls_failed : Nat
  total_urls : Nat
  total_data_points : Nat
  avg_retry_count : ℚ
  duration_seconds : ℚ
  urls_per_second : ℚ
  success_rate : ℚ
  deriving DecidableEq, Repr

/-- Model of `ScraperMetrics.get_summary` (lines 531-555), with the source guards:
`duration_seconds` falls back to 0 when the duration is unset, the rate is 0
unless the duration is positive, the denominator of `avg_retry_count` is
clamped to at least 1, and `success_rate` is 0 when no URL was recorded. -/
def ScraperMetrics.get_summary (m : ScraperMetrics) : MetricsSummary :=
  let duration_seconds : ℚ :=
    match m.get_duration with
    | some d => d
    | none => 0
  let rate : ℚ :=
    if 0 < duration_seconds then (m.urls_processed : ℚ) / duration_seconds else 0
  { urls_processed := m.urls_processed
    urls_failed := m.urls_failed
    total_urls := m.urls_processed + m.urls_failed
    total_data_points := m.total_data_points
    avg_retry_count := (m.total_retries : ℚ) / ((max (m.urls_processed + m.urls_failed) 1 : Nat) : ℚ)
    duration_seconds := duration_seconds
    urls_per_second := rate
    success_rate :=
      if 0 < m.urls_processed + m.urls_failed then
        (m.urls_processed : ℚ) / ((m.urls_processed + m.urls_failed : Nat) : ℚ) * 100
      else 0 }

/-- One call into `ScraperMetrics` from the engine. -/
inductive MetricsEvent
  | startEv (now : ℚ)
  | endEv (now : ℚ)
  | successEv (data_points retries : Nat)
  | failureEv (retries : Nat)
  deriving DecidableEq, Repr

/-- Apply one metrics call. -/
def applyMetricsEvent (m : ScraperMetrics) : MetricsEvent → ScraperMetrics
  | .startEv now => m.start now
  | .endEv now => m.end_ now
  | .successEv d r => m.record_success d r
  | .failureEv r => m.record_failure r

/-- Run an arbitrary sequence of metrics calls from a fresh tracker. -/
def runMetrics (es : List MetricsEvent) : ScraperMetrics :=
  es.foldl applyMetricsEvent ScraperMetrics.init

/- ## Dead-letter queue — src/utils/dlq_manager.py -/

/-- Errors the redis client can raise on `lpush`. -/
inductive RedisError
  | connectionError
  deriving DecidableEq, Repr

/-- Model of the `redis` client held by the DLQ: a reachability flag and the
list behind `lpush` (which prepends). -/
structure RedisClient where
  reachable : Bool
  store : List String
  deriving DecidableEq, Repr

/-- Model of `client.lpush`: prepends when the backing store is reachable, raises a
connection error otherwise. -/
def RedisClient.lpush (c : RedisClient) (item : String) : Except RedisError RedisClient :=
  if c.reachable then .ok { c with store := item :: c.store } else .error .connectionError

/-- Model of `DeadLetterQueue`: `client` is `None` when no redis URL is configured. -/
structure DeadLetterQueue where
  client : Option RedisClient
  deriving DecidableEq, Repr

/-- A DLQ payload dictionary: the fields used by `add`. -/
structure DLQPayload where
  url : String
  error : String
  timestamp : Option String
  deriving DecidableEq, Repr

/-- Model of `json.dumps` of the enriched payload, as an explicit encoding. -/
def DLQPayload.serialize (p : DLQPayload) : String :=
  p.url ++ "|" ++ p.error ++ "|" ++ p.timestamp.getD ""

/-- Model of `DeadLetterQueue.add` (lines 22-29 of dlq_manager.py): returns silently
when no client is configured; otherwise enriches the payload with a timestamp
(`now` models `datetime.utcnow()`) and calls `lpush` with no surrounding
exception handler, so a store error propagates to the caller. -/
def DeadLetterQueue.add (d : DeadLetterQueue) (p : DLQPayload) (now : String) :
    Except RedisError DeadLetterQueue :=
  match d.client with
  | none => .ok d
  | some c =>
    let enriched := { p with timestamp := some (p.timestamp.getD now) }
    (c.lpush enriched.serialize).map fun c' => { d with client := some c' }

/- ## Configuration — src/base_scraper.py, class ScraperConfig (lines 40-77) -/

/-- The resolved fields of `ScraperConfig` after `__init__` has applied the
defaults. -/
structure ScraperConfig where
  grid_url : String
  max_workers : Nat
  timeout : Nat
  implicit_wait : Nat
  page_load_timeout : Nat
  max_retries : Nat
  retry_delay : ℚ
  headless : Bool
  browser : String
  deriving DecidableEq, Repr

/- ## Session pool — src/base_scraper.py, class BrowserSessionPool (lines 80-204)

Sessions are numbered by creation order.  `available_sessions` is the FIFO
`Queue(maxsize=max_workers)` (head is the next `get`); `active_sessions` is
the set of sessions created and not yet closed, touched only inside
`self.lock` in the source, so each lock-guarded critical section below is one
atomic step. -/

structure BrowserSessionPool where
  available_sessions : List Nat
  active_sessions : Finset Nat
  closed : Bool
  nextId : Nat
  deriving DecidableEq

/-- Model of `BrowserSessionPool.__init__`. -/
def BrowserSessionPool.init : BrowserSessionPool :=
  { available_sessions := [], active_sessions := ∅, closed := false, nextId := 0 }

/-- The `self.available_sessions.get(timeout=timeout)` step of
`acquire_session` (line 107): pop the oldest idle session if any. -/
def BrowserSessionPool.queueGet (p : BrowserSessionPool) :
    Option (Nat × BrowserSessionPool) :=
  match p.available_sessions with
  | [] => none
  | s :: rest => some (s, { p with available_sessions := rest })

/-- Model of `_create_session` (lines 127-154), the body under `with self.lock`: if the
set of not-yet-closed sessions is already at `max_workers`, return `None`;
otherwise ask the remote grid for a driver (`ok` tells whether
`webdriver.Remote` succeeds) and on success add it to `active_sessions`.
Creation failure is logged and surfaced as `None`, never raised. -/
def BrowserSessionPool.createSession (p : BrowserSessionPool) (cfg : ScraperConfig)
    (ok : Bool) : Option Nat × BrowserSessionPool :=
  if cfg.max_workers ≤ p.active_sessions.card then (none, p)
  else if ok then
    (some p.nextId,
     { p with active_sessions := insert p.nextId p.active_sessions,
              nextId := p.nextId + 1 })
  else (none, p)

/-- Model of `acquire_session` (lines 96-111): take an idle session from the queue,
falling back to `_create_session` when the queue `get` times out empty. -/
def BrowserSessionPool.acquire_session (p : BrowserSessionPool) (cfg : ScraperConfig)
    (ok : Bool) : Option Nat × BrowserSessionPool :=
  match p.queueGet with
  | some (s, p') => (some s, p')
  | none => p.createSession cfg ok

/-- Model of `_close_session` (lines 179-187): quit the driver and discard it from
`active_sessions` under the lock. -/
def BrowserSessionPool.closeSession (p : BrowserSessionPool) (s : Nat) :
    BrowserSessionPool :=
  { p with active_sessions := p.active_sessions.erase s }

/-- Model of `release_session` (lines 113-125): when the pool is not closed, `put` the
session back on the queue without blocking; a full queue makes `put` raise,
which the handler turns into `_close_session`.  Nothing checks whether the
session is already idle in the queue. -/
def BrowserSessionPool.release_session (p : BrowserSessionPool) (cfg : ScraperConfig)
    (s : Nat) : BrowserSessionPool :=
  if p.closed then p
  else if p.available_sessions.length < cfg.max_workers then
    { p with available_sessions := p.available_sessions ++ [s] }
  else
    p.closeSession s

/-- Model of `close_all` (lines 189-204): mark the pool closed, force-close every
active session and drain the idle queue. -/
def BrowserSessionPool.close_all (p : BrowserSessionPool) : BrowserSessionPool :=
  { p with closed := true, active_sessions := ∅, available_sessions := [] }

/-- One atomic step a worker can take against the pool, at the granularity of
the lock-guarded (resp. queue-internal) critical sections: any interleaving
of concurrent `acquire_session` / `release_session` / `close_all` calls is a
sequence of these steps. -/
inductive PoolStep (cfg : ScraperConfig) : BrowserSessionPool → BrowserSessionPool → Prop
  | queueGet (p : BrowserSessionPool) (s : Nat) (p' : BrowserSessionPool)
      (h : p.queueGet = some (s, p')) : PoolStep cfg p p'
  | create (p : BrowserSessionPool) (ok : Bool) :
      PoolStep cfg p (p.createSession cfg ok).2
  | release (p : BrowserSessionPool) (s : Nat) :
      PoolStep cfg p (p.release_session cfg s)
  | closeOne (p : BrowserSessionPool) (s : Nat) :
      PoolStep cfg p (p.closeSession s)
  | closeAll (p : BrowserSessionPool) :
      PoolStep cfg p p.close_all

/-- Pool states reachable from a fresh pool by some interleaving of workers. -/
def PoolReachable (cfg : ScraperConfig) (p : BrowserSessionPool) : Prop :=
  Relation.ReflTransGen (PoolStep cfg) BrowserSessionPool.init p

/- ## The retry loop — src/base_scraper.py, BaseScraper._scrape_with_retry
(lines 298-365)

The outcome of each acquire-and-process cycle is given by an oracle.  The
`tenacity.Retrying` object built by `build_retrying(max_attempts=3)`
(src/utils/retry_handler.py) stops after 3 attempts, retries on any
`Exception` (its default predicate), and its per-attempt context manager
swallows the exception raised inside `with retry_state:`, recording it as the
attempt outcome; with `reraise=True` the final exception is re-raised when
the attempts are exhausted.  Hence an exception raised by `process_url` —
retryable or not — never reaches the two `except` handlers of the source
(they fire only for the `WebDriverException` raised outside the `with` block
when `acquire_session` returns `None`), and simply consumes one attempt. -/

/-- What one acquire-and-process cycle does, as seen by `_scrape_with_retry`. -/
inductive AttemptOutcome
  | acquireFail
  | okResult
  | retryableExc
  | terminalExc
  deriving DecidableEq, Repr

/-- The observable effects of one `_scrape_with_retry` call. -/
structure EngineState where
  cfg : ScraperConfig
  breakerFailures : Nat
  breakerSuccesses : Nat
  dlq : List String
  processCalls : Nat
  idx : Nat
  deriving DecidableEq, Repr

/-- The `for attempt, retry_state in enumerate(self.retrying, ...)` loop for
one browser, with `fuel` attempts left (3 at entry).  `acquireFail` raises a
`WebDriverException` outside the attempt context: the first handler records a
breaker failure and re-raises out of the loop.  A success returns the result
after recording a breaker success.  Any exception from `process_url` is
swallowed by the attempt context and consumes one attempt; exhaustion
re-raises out of the loop. -/
def runAttempts (oracle : Nat → AttemptOutcome) : Nat → EngineState → Bool × EngineState
  | 0, st => (false, st)
  | fuel + 1, st =>
    let o := oracle st.idx
    let st := { st with idx := st.idx + 1 }
    match o with
    | .acquireFail => (false, { st with breakerFailures := st.breakerFailures + 1 })
    | .okResult =>
      (true, { st with processCalls := st.processCalls + 1,
                       breakerSuccesses := st.breakerSuccesses + 1 })
    | .retryableExc => runAttempts oracle fuel { st with processCalls := st.processCalls + 1 }
    | .terminalExc => runAttempts oracle fuel { st with processCalls := st.processCalls + 1 }

/-- Model of `browsers_to_try` (lines 312-314): the configured browser, plus firefox
as graceful fallback when it is chrome. -/
def browsersToTry (cfg : ScraperConfig) : List String :=
  [cfg.browser] ++ (if cfg.browser = "chrome" then ["firefox"] else [])

/-- The `for browser in browsers_to_try` loop (lines 316-365): each iteration
assigns `self.config.browser = browser` on the shared configuration, then
runs the retry loop; any escaped exception moves on to the next browser.
When every browser fails, one final `dlq.add` records `All retries failed`. -/
def runBrowsers (oracle : Nat → AttemptOutcome) :
    List String → EngineState → Bool × EngineState
  | [], st => (false, { st with dlq := st.dlq ++ ["All retries failed"] })
  | b :: rest, st =>
    let st := { st with cfg := { st.cfg with browser := b } }
    match runAttempts oracle 3 st with
    | (true, st') => (true, st')
    | (false, st') => runBrowsers oracle rest st'

/-- Model of `_scrape_with_retry` for one task (breaker assumed to admit it and no
shutdown signal): returns whether a result was produced, together with the
final shared configuration and the recorded effects. -/
def scrape_with_retry (cfg : ScraperConfig) (oracle : Nat → AttemptOutcome) :
    Bool × EngineState :=
  runBrowsers oracle (browsersToTry cfg)
    { cfg := cfg, breakerFailures := 0, breakerSuccesses := 0, dlq := [],
      processCalls := 0, idx := 0 }

/- ## Concrete inputs used by witnesses and counterexamples -/

/-- A concrete resolved configuration with chrome and two workers. -/
def cfgEx : ScraperConfig :=
  { grid_url := "http://grid:4444", max_workers := 2, timeout := 10,
    implicit_wait := 5, page_load_timeout := 10, max_retries := 3,
    retry_delay := 1, headless := true, browser := "chrome" }

/-- An oracle on which every acquire-and-process cycle raises an exception
that is not one of the tagged retryable types. -/
def allTerminal : Nat → AttemptOutcome := fun _ => .terminalExc

/-- An oracle on which every acquire-and-process cycle raises one of the
tagged retryable exception types. -/
def allRetryable : Nat → AttemptOutcome := fun _ => .retryableExc

/- ## Theorems -/

/-- C3: with threshold 3, starting from the Closed state, three consecutive
`record_failure` calls make `can_execute` return false (while the reset
timeout has not elapsed since the last failure); once more than
`reset_timeout` has elapsed, the next `can_execute` returns true and moves
the state to HalfOpen; from there `record_success` resets the failure count
to 0 and the state to Closed, while a single `record_failure` puts the state
back to Open. -/
theorem c3_breaker_threshold_scenario (rt t1 t2 t3 now now' t4 : ℚ)
    (h1 : now - t3 ≤ rt) (h2 : rt < now' - t3) :
    let b3 : SeleniumCircuitBreaker := (((SeleniumCircuitBreaker.init 3
      rt).record_failure t1).record_failure t2).record_failure t3
    (b3.can_execute now).1 = false ∧
    (b3.can_execute now').1 = true ∧
    (b3.can_execute now').2.state = .halfOpen ∧
    (b3.can_execute now').2.record_success.failure_count = 0 ∧
    (b3.can_execute now').2.record_success.state = .closed ∧
    ((b3.can_execute now').2.record_failure t4).state = .opened := by
  have hn : ¬ rt < now - t3 := not_lt.mpr h1
  simp [SeleniumCircuitBreaker.init, SeleniumCircuitBreaker.record_failure,
    SeleniumCircuitBreaker.record_success, SeleniumCircuitBreaker.can_execute,
    hn, h2]

/-- Witness for C3 at threshold 3, reset timeout 1, failures at time 0,
first probe at time 1 and second at time 2. -/
theorem c3_breaker_threshold_scenario_witness :
    let b3 : SeleniumCircuitBreaker := (((SeleniumCircuitBreaker.init 3
      1).record_failure 0).record_failure 0).record_failure 0
    (b3.can_execute 1).1 = false ∧
    (b3.can_execute 2).1 = true ∧
    (b3.can_execute 2).2.state = .halfOpen ∧
    (b3.can_execute 2).2.record_success.failure_count = 0 ∧
    (b3.can_execute 2).2.record_success.state = .closed ∧
    ((b3.can_execute 2).2.record_failure 3).state = .opened :=
  c3_breaker_threshold_scenario 1 0 0 0 1 2 3 (by norm_num) (by norm_num)

/-- C7 counterexample: after the Open to HalfOpen flip, a second
`can_execute` call — with no intervening `record_success` or
`record_failure` — returns true again and leaves the breaker unchanged, so
`can_execute` does not return true exactly once. -/
theorem c7_halfopen_single_probe_counterexample :
    let b3 := (((SeleniumCircuitBreaker.init 3 1).record_failure 0).record_failure
      0).record_failure 0
    let r1 := b3.can_execute 2
    (r1.1 = true ∧ r1.2.state = .halfOpen) ∧
    (r1.2.can_execute 2).1 = true ∧
    (r1.2.can_execute 2).2 = r1.2 := by
  norm_num [SeleniumCircuitBreaker.init, SeleniumCircuitBreaker.record_failure,
    SeleniumCircuitBreaker.can_execute]

/-- C7 amended: after the breaker transitions from Open to HalfOpen, every
subsequent `can_execute` call returns true and leaves the state HalfOpen
until a `record_success` or `record_failure` resolves it; the breaker itself
does not limit HalfOpen to a single admitted execution. -/
theorem c7_halfopen_admits_every_call (b : SeleniumCircuitBreaker) (now : ℚ)
    (h : b.state = .halfOpen) :
    (b.can_execute now).1 = true ∧ (b.can_execute now).2 = b := by
  unfold SeleniumCircuitBreaker.can_execute
  rw [h]
  exact ⟨rfl, rfl⟩

/-- Witness for the amended C7 at a concrete HalfOpen breaker. -/
theorem c7_halfopen_admits_every_call_witness :
    let b : SeleniumCircuitBreaker :=
      { threshold := 3, reset_timeout := 1, failure_count := 3,
        last_failure_time := some 0, state := .halfOpen }
    (b.can_execute 5).1 = true ∧ (b.can_execute 5).2 = b :=
  c7_halfopen_admits_every_call
    { threshold := 3, reset_timeout := 1, failure_count := 3,
      last_failure_time := some 0, state := .halfOpen } 5 rfl

/-- C8: the adaptive pacing delay stays in `[min_delay, max_delay]` whenever
it starts in that interval (delays are nonnegative), and each adjustment
follows the stated rule: a failed fetch multiplies the delay by 1.5 capped at
`max_delay`, a successful fetch slower than 4 seconds multiplies it by 1.3
capped at `max_delay` (both factors lie in the stated 1.3 to 1.5 range), a
successful fetch faster than 1 second multiplies it by 0.8 floored at
`min_delay`, and otherwise the delay is unchanged. -/
theorem c8_adaptive_pacing_rule (a : AdaptiveScraper) (rt : ℚ) (success : Bool)
    (h0 : 0 ≤ a.min_delay) (hlo : a.min_delay ≤ a.delay) (hhi : a.delay ≤ a.max_delay) :
    (a.min_delay ≤ (a.adjust_rate rt success).delay ∧
      (a.adjust_rate rt success).delay ≤ a.max_delay) ∧
    (success = false →
      (a.adjust_rate rt success).delay = min a.max_delay (a.delay * (3 / 2))) ∧
    (success = true → 4 < rt →
      (a.adjust_rate rt success).delay = min a.max_delay (a.delay * (13 / 10))) ∧
    (success = true → rt < 1 →
      (a.adjust_rate rt success).delay = max a.min_delay (a.delay * (4 / 5))) ∧
    (success = true → 1 ≤ rt → rt ≤ 4 →
      (a.adjust_rate rt success).delay = a.delay) := by
  have hminmax : a.min_delay ≤ a.max_delay := le_trans hlo hhi
  have hd0 : 0 ≤ a.delay := le_trans h0 hlo
  unfold AdaptiveScraper.adjust_rate
  refine ⟨?_, ?_, ?_, ?_, ?_⟩
  · split_ifs with hs h4 hr1
    · exact ⟨le_min hminmax (le_trans hlo (le_mul_of_one_le_right hd0 (by norm_num))),
        min_le_left _ _⟩
    · exact ⟨le_min hminmax (le_trans hlo (le_mul_of_one_le_right hd0 (by norm_num))),
        min_le_left _ _⟩
    · exact ⟨le_max_left _ _,
        max_le hminmax (le_trans (mul_le_of_le_one_right hd0 (by norm_num)) hhi)⟩
    · exact ⟨hlo, hhi⟩
  · intro hs
    subst hs
    simp
  · intro hs h4
    subst hs
    have hn1 : ¬ rt < 1 := by linarith
    simp [h4, hn1]
  · intro hs hr1
    subst hs
    have hn4 : ¬ (4 : ℚ) < rt := by linarith
    simp [hn4, hr1]
  · intro hs h1 h2
    subst hs
    have hn4 : ¬ (4 : ℚ) < rt := not_lt.mpr h2
    have hn1 : ¬ rt < 1 := not_lt.mpr h1
    simp [hn4, hn1]

/-- Witness for C8 at the constructor defaults (delay 0.5, bounds 0.2 and 5)
on a sub-second successful fetch. -/
theorem c8_adaptive_pacing_rule_witness :
    let a : AdaptiveScraper := { delay := 1 / 2, min_delay := 1 / 5, max_delay := 5 }
    (a.min_delay ≤ (a.adjust_rate (1 / 2) true).delay ∧
      (a.adjust_rate (1 / 2) true).delay ≤ a.max_delay) ∧
    (true = false →
      (a.adjust_rate (1 / 2) true).delay = min a.max_delay (a.delay * (3 / 2))) ∧
    (true = true → 4 < (1 / 2 : ℚ) →
      (a.adjust_rate (1 / 2) true).delay = min a.max_delay (a.delay * (13 / 10))) ∧
    (true = true → (1 / 2 : ℚ) < 1 →
      (a.adjust_rate (1 / 2) true).delay = max a.min_delay (a.delay * (4 / 5))) ∧
    (true = true → 1 ≤ (1 / 2 : ℚ) → (1 / 2 : ℚ) ≤ 4 →
      (a.adjust_rate (1 / 2) true).delay = a.delay) :=
  c8_adaptive_pacing_rule { delay := 1 / 2, min_delay := 1 / 5, max_delay := 5 }
    (1 / 2) true (by norm_num) (by norm_num) (by norm_num)

/-- C9 counterexample: with pool `["a", "b"]` and a 300-second rotation
interval, a call at time 400 rotates and returns proxy "a", and a second call
at time 401 — inside the same rotation interval, since only one second has
elapsed since the rotation — returns proxy "b": calls within the same
interval do not all return the same proxy. -/
theorem c9_rotation_counterexample :
    let m0 : ProxyManager := { pool := ["a", "b"], rotation_interval := 300, last_rotation := 0 }
    let r1 := m0.get_residential_proxy 400 0
    let r2 := r1.2.get_residential_proxy 401 1
    r1.1 = some "a" ∧
    (401 : ℚ) - r1.2.last_rotation ≤ r1.2.rotation_interval ∧
    r2.1 = some "b" ∧
    r1.1 ≠ r2.1 := by
  have hne : (["a", "b"] : List String) ≠ [] := by simp
  norm_num [ProxyManager.get_residential_proxy, hne]
  decide

/-- C9 amended: `get_residential_proxy` draws a fresh random element of the
pool on every call, independently of the rotation window: for every state
with a non-empty pool, the returned proxy is `pool[pick % len(pool)]` where
`pick` is the draw of `random.choice`, the pool is unchanged, and
`last_rotation` is refreshed exactly when more than `rotation_interval`
seconds have elapsed since the previous rotation. -/
theorem c9_choice_ignores_window (m : ProxyManager) (now : ℚ) (pick : Nat)
    (h : m.pool ≠ []) :
    (m.get_residential_proxy now pick).1 = m.pool.get? (pick % m.pool.length) ∧
    (m.get_residential_proxy now pick).2.pool = m.pool ∧
    (m.get_residential_proxy now pick).2.last_rotation =
      (if m.rotation_interval < now - m.last_rotation then now else m.last_rotation) := by
  unfold ProxyManager.get_residential_proxy
  rw [if_neg h]
  by_cases hrot : m.rotation_interval < now - m.last_rotation
  · simp [hrot]
  · simp [hrot]

/-- Witness for the amended C9 at a concrete two-proxy pool. -/
theorem c9_choice_ignores_window_witness :
    let m : ProxyManager := { pool := ["a", "b"], rotation_interval := 300, last_rotation := 0 }
    (m.get_residential_proxy 401 3).1 = m.pool.get? (3 % m.pool.length) ∧
    (m.get_residential_proxy 401 3).2.pool = m.pool ∧
    (m.get_residential_proxy 401 3).2.last_rotation =
      (if m.rotation_interval < (401 : ℚ) - m.last_rotation then 401 else m.last_rotation) :=
  c9_choice_ignores_window
    { pool := ["a", "b"], rotation_interval := 300, last_rotation := 0 } 401 3 (by simp)

/-- C10: for every sequence of calls into `ScraperMetrics`, `get_summary` is
well defined with no division by zero: `total_urls` is the sum of processed
and failed counts, `success_rate` is 0 when no URL was recorded and otherwise
equals processed divided by total times 100 (hence always lies in [0, 100]),
and `urls_per_second` is 0 whenever the duration is unset or not positive. -/
theorem c10_metrics_summary_guards (es : List MetricsEvent) :
    (runMetrics es).get_summary.total_urls =
      (runMetrics es).urls_processed + (runMetrics es).urls_failed ∧
    0 ≤ (runMetrics es).get_summary.success_rate ∧
    (runMetrics es).get_summary.success_rate ≤ 100 ∧
    ((runMetrics es).urls_processed + (runMetrics es).urls_failed = 0 →
      (runMetrics es).get_summary.success_rate = 0) ∧
    (0 < (runMetrics es).urls_processed + (runMetrics es).urls_failed →
      (runMetrics es).get_summary.success_rate =
        ((runMetrics es).urls_processed : ℚ) /
          (((runMetrics es).urls_processed : ℚ) + ((runMetrics es).urls_failed : ℚ)) * 100) ∧
    ((runMetrics es).get_duration = none →
      (runMetrics es).get_summary.urls_per_second = 0) ∧
    ((runMetrics es).get_summary.duration_seconds ≤ 0 →
      (runMetrics es).get_summary.urls_per_second = 0) := by
  generalize runMetrics es = m
  have hsr : m.get_summary.success_rate =
      (if 0 < m.urls_processed + m.urls_failed then
        (m.urls_processed : ℚ) / ((m.urls_processed + m.urls_failed : ℕ) : ℚ) * 100
      else 0) := rfl
  have hds : m.get_summary.duration_seconds =
      (match m.get_duration with
        | some d => d
        | none => 0) := rfl
  have hups : m.get_summary.urls_per_second =
      (if 0 < m.get_summary.duration_seconds then
        (m.urls_processed : ℚ) / m.get_summary.duration_seconds
      else 0) := rfl
  refine ⟨rfl, ?_, ?_, ?_, ?_, ?_, ?_⟩
  · rw [hsr]
    by_cases hpf : 0 < m.urls_processed + m.urls_failed
    · rw [if_pos hpf]
      positivity
    · rw [if_neg hpf]
  · rw [hsr]
    by_cases hpf : 0 < m.urls_processed + m.urls_failed
    · rw [if_pos hpf]
      have hden : (0 : ℚ) < ((m.urls_processed + m.urls_failed : ℕ) : ℚ) := by
        exact_mod_cast hpf
      have hle : (m.urls_processed : ℚ) ≤ ((m.urls_processed + m.urls_failed : ℕ) : ℚ) := by
        exact_mod_cast Nat.le_add_right _ _
      have h1 : (m.urls_processed : ℚ) / ((m.urls_processed + m.urls_failed : ℕ) : ℚ) ≤ 1 :=
        (div_le_one hden).mpr hle
      nlinarith [h1, hden]
    · rw [if_neg hpf]
      norm_num
  · intro h
    rw [hsr, if_neg (by omega)]
  · intro h
    rw [hsr, if_pos h]
    push_cast
    ring
  · intro h
    have hz : m.get_summary.duration_seconds = 0 := by rw [hds, h]
    rw [hups, hz]
    norm_num
  · intro h
    rw [hups, if_neg (not_lt.mpr h)]

/-- Witness for C10 on one recorded success followed by one recorded
failure, with the timer never started. -/
theorem c10_metrics_summary_guards_witness :
    (runMetrics [.successEv 1 1, .failureEv 1]).get_summary.total_urls =
      (runMetrics [.successEv 1 1, .failureEv 1]).urls_processed +
        (runMetrics [.successEv 1 1, .failureEv 1]).urls_failed ∧
    0 ≤ (runMetrics [.successEv 1 1, .failureEv 1]).get_summary.success_rate ∧
    (runMetrics [.successEv 1 1, .failureEv 1]).get_summary.success_rate ≤ 100 ∧
    ((runMetrics [.successEv 1 1, .failureEv 1]).urls_processed +
        (runMetrics [.successEv 1 1, .failureEv 1]).urls_failed = 0 →
      (runMetrics [.successEv 1 1, .failureEv 1]).get_summary.success_rate = 0) ∧
    (0 < (runMetrics [.successEv 1 1, .failureEv 1]).urls_processed +
        (runMetrics [.successEv 1 1, .failureEv 1]).urls_failed →
      (runMetrics [.successEv 1 1, .failureEv 1]).get_summary.success_rate =
        ((runMetrics [.successEv 1 1, .failureEv 1]).urls_processed : ℚ) /
          (((runMetrics [.successEv 1 1, .failureEv 1]).urls_processed : ℚ) +
            ((runMetrics [.successEv 1 1, .failureEv 1]).urls_failed : ℚ)) * 100) ∧
    ((runMetrics [.successEv 1 1, .failureEv 1]).get_duration = none →
      (runMetrics [.successEv 1 1, .failureEv 1]).get_summary.urls_per_second = 0) ∧
    ((runMetrics [.successEv 1 1, .failureEv 1]).get_summary.duration_seconds ≤ 0 →
      (runMetrics [.successEv 1 1, .failureEv 1]).get_summary.urls_per_second = 0) :=
  c10_metrics_summary_guards [.successEv 1 1, .failureEv 1]

/-- C6 counterexample: with a configured client whose backing store is
unreachable, `DeadLetterQueue.add` propagates the connection error to its
caller instead of logging and returning normally, so `add` can raise. -/
theorem c6_add_raises_counterexample :
    DeadLetterQueue.add { client := some { reachable := false, store := [] } }
      { url := "http://x", error := "boom", timestamp := none } "t0" =
      .error .connectionError := by
  rfl

/-- C6 amended: `add` returns without raising — and without logging — when no
backing store is configured; when a client is configured and the store is
unreachable, the store error propagates out of `add` to the caller. -/
theorem c6_add_degradation (d : DeadLetterQueue) (p : DLQPayload) (now : String) :
    (d.client = none → d.add p now = .ok d) ∧
    (∀ c, d.client = some c → c.reachable = false →
      d.add p now = .error .connectionError) := by
  constructor
  · intro h
    unfold DeadLetterQueue.add
    rw [h]
  · intro c hc hr
    unfold DeadLetterQueue.add
    rw [hc]
    simp [RedisClient.lpush, hr, Except.map]

/-- Witness for the amended C6: an unconfigured queue returns `.ok`, and a
queue backed by an unreachable store returns the connection error. -/
theorem c6_add_degradation_witness :
    (DeadLetterQueue.add { client := none }
      { url := "http://x", error := "boom", timestamp := none } "t0" =
        .ok { client := none }) ∧
    (DeadLetterQueue.add { client := some { reachable := false, store := ["old"] } }
      { url := "http://x", error := "boom", timestamp := none } "t0" =
        .error .connectionError) :=
  ⟨(c6_add_degradation { client := none }
      { url := "http://x", error := "boom", timestamp := none } "t0").1 rfl,
   (c6_add_degradation { client := some { reachable := false, store := ["old"] } }
      { url := "http://x", error := "boom", timestamp := none } "t0").2
      { reachable := false, store := ["old"] } rfl rfl⟩

/-- C1: for every interleaving of the lock-guarded critical sections of the pool
by concurrent workers — queue pops, `_create_session` bodies, releases,
session closes and `close_all` — the number of sessions created and not yet
closed (`active_sessions`) never exceeds `max_workers`: the capacity check
and the insertion into `active_sessions` sit in one atomic step, so no
reachable state exceeds capacity. -/
theorem c1_pool_capacity_invariant (cfg : ScraperConfig) (p : BrowserSessionPool)
    (h : PoolReachable cfg p) : p.active_sessions.card ≤ cfg.max_workers := by
  have queueGet_active : ∀ q : BrowserSessionPool, ∀ s : Nat, ∀ q' : BrowserSessionPool,
      q.queueGet = some (s, q') → q'.active_sessions = q.active_sessions := by
    intro q s q' hq
    unfold BrowserSessionPool.queueGet at hq
    cases hqa : q.available_sessions with
    | nil => rw [hqa] at hq; exact absurd hq (by simp)
    | cons a rest =>
      rw [hqa] at hq
      simp only [Option.some.injEq, Prod.mk.injEq] at hq
      rw [← hq.2]
  induction h with
  | refl => simp [BrowserSessionPool.init]
  | tail hsteps hstep ih =>
    rename_i q q'
    cases hstep with
    | queueGet s hq =>
      rename_i hqq
      rw [queueGet_active q s q' hqq]
      exact ih
    | create ok =>
      unfold BrowserSessionPool.createSession
      split_ifs with hcap hok
      · exact ih
      · calc (insert q.nextId q.active_sessions).card
            ≤ q.active_sessions.card + 1 := Finset.card_insert_le _ _
          _ ≤ cfg.max_workers := by omega
      · exact ih
    | release s =>
      unfold BrowserSessionPool.release_session BrowserSessionPool.closeSession
      split_ifs
      · exact ih
      · exact ih
      · exact le_trans (Finset.card_erase_le) ih
    | closeOne s =>
      exact le_trans (Finset.card_erase_le) ih
    | closeAll =>
      simp [BrowserSessionPool.close_all]

/-- Witness for C1 at a concrete configuration, on the state reached by one
successful session creation. -/
theorem c1_pool_capacity_invariant_witness :
    (BrowserSessionPool.init.createSession cfgEx true).2.active_sessions.card ≤
      cfgEx.max_workers :=
  c1_pool_capacity_invariant cfgEx (BrowserSessionPool.init.createSession cfgEx true).2
    (Relation.ReflTransGen.single (PoolStep.create BrowserSessionPool.init true))

/-- C5 counterexample: create session 0, release it, then release it a second
time while it is already idle.  The double release enqueues a duplicate
(`available_sessions = [0, 0]`), and the next two `acquire_session` queue
pops both hand session 0 out, so two in-flight tasks hold the same session:
releasing an already-released session is not a safe no-op. -/
theorem c5_double_release_counterexample :
    let p1 := (BrowserSessionPool.init.createSession cfgEx true).2
    let p2 := p1.release_session cfgEx 0
    let p3 := p2.release_session cfgEx 0
    p2.available_sessions = [0] ∧
    p3.available_sessions = [0, 0] ∧
    p3.queueGet.map Prod.fst = some 0 ∧
    (p3.queueGet.bind fun r => r.2.queueGet).map Prod.fst = some 0 := by
  decide

/-- C5 amended: releasing a session that is the sole idle entry of an open
pool with spare queue capacity appends it again rather than being a no-op,
after which the next two queue pops of `acquire_session` both return that
same session; release is a no-op only when the pool is closed. -/
theorem c5_double_release_duplicates (p : BrowserSessionPool) (cfg : ScraperConfig)
    (s : Nat) (hclosed : p.closed = false) (hq : p.available_sessions = [s])
    (hcap : 2 ≤ cfg.max_workers) :
    (p.release_session cfg s).available_sessions = [s, s] ∧
    (p.release_session cfg s).queueGet.map Prod.fst = some s ∧
    ((p.release_session cfg s).queueGet.bind fun r => r.2.queueGet).map Prod.fst =
      some s := by
  have h1 : 1 < cfg.max_workers := by omega
  unfold BrowserSessionPool.release_session
  rw [hclosed, hq]
  simp [h1, BrowserSessionPool.queueGet]

/-- Witness for the amended C5 at a concrete pool holding idle session 0. -/
theorem c5_double_release_duplicates_witness :
    let p : BrowserSessionPool :=
      { available_sessions := [0], active_sessions := {0}, closed := false, nextId := 1 }
    (p.release_session cfgEx 0).available_sessions = [0, 0] ∧
    (p.release_session cfgEx 0).queueGet.map Prod.fst = some 0 ∧
    ((p.release_session cfgEx 0).queueGet.bind fun r => r.2.queueGet).map Prod.fst =
      some 0 :=
  c5_double_release_duplicates
    { available_sessions := [0], active_sessions := {0}, closed := false, nextId := 1 }
    cfgEx 0 rfl rfl (by decide)

/-- C2: evaluation at the failing input.  With the shared configuration set
to chrome and a task whose every acquire-and-process cycle raises an
unexpected exception, `_scrape_with_retry` ends with the shared
configuration field browser equal to "firefox": the per-task browser
fallback is implemented by writing `self.config.browser = browser` on the
shared engine configuration, so the configuration is mutated mid-run. -/
theorem c2_shared_config_browser_mutated :
    cfgEx.browser = "chrome" ∧
    (scrape_with_retry cfgEx allTerminal).2.cfg.browser = "firefox" ∧
    (scrape_with_retry cfgEx allTerminal).2.cfg.browser ≠ cfgEx.browser := by
  decide

/-- C4 counterexample: a task whose very first acquire-and-process cycle
raises a Terminal (untagged) exception is not short-circuited to the DLQ:
the page processor is invoked six times (three tenacity attempts on chrome
and three more on the firefox fallback), not once, and the only DLQ entry is
the final catch-all `All retries failed` record — no per-terminal entry and
no immediate stop. -/
theorem c4_terminal_not_short_circuited_counterexample :
    allTerminal 0 = .terminalExc ∧
    (scrape_with_retry cfgEx allTerminal).2.processCalls = 6 ∧
    (scrape_with_retry cfgEx allTerminal).2.processCalls ≠ 1 ∧
    (scrape_with_retry cfgEx allTerminal).2.dlq = ["All retries failed"] ∧
    (scrape_with_retry cfgEx allTerminal).1 = false := by
  decide

/-- Helper for the amended C4: when every oracle outcome is a processor
exception (retryable or terminal), the tenacity loop consumes exactly its
`fuel` attempts, recording one `process_url` call per attempt and touching
nothing else. -/
theorem runAttempts_all_fail (oracle : Nat → AttemptOutcome)
    (h : ∀ n, oracle n = .retryableExc ∨ oracle n = .terminalExc) :
    ∀ fuel st, runAttempts oracle fuel st =
      (false, { st with processCalls := st.processCalls + fuel, idx := st.idx + fuel }) := by
  intro fuel
  induction fuel with
  | zero => intro st; rfl
  | succ n ihn =>
    intro st
    rcases h st.idx with h1 | h1 <;>
      · simp only [runAttempts, h1]
        rw [ihn]
        simp only [Prod.mk.injEq, EngineState.mk.injEq, true_and, and_true]
        omega

/-- Helper for the amended C4: the browser-fallback loop over an all-failure
oracle fails every browser, performs three processor calls per browser,
records no breaker failure, and ends with the single final DLQ entry. -/
theorem runBrowsers_all_fail (oracle : Nat → AttemptOutcome)
    (h : ∀ n, oracle n = .retryableExc ∨ oracle n = .terminalExc) :
    ∀ bs : List String, ∀ st : EngineState,
      (runBrowsers oracle bs st).1 = false ∧
      (runBrowsers oracle bs st).2.processCalls = st.processCalls + 3 * bs.length ∧
      (runBrowsers oracle bs st).2.dlq = st.dlq ++ ["All retries failed"] ∧
      (runBrowsers oracle bs st).2.breakerFailures = st.breakerFailures := by
  intro bs
  induction bs with
  | nil => intro st; simp [runBrowsers]
  | cons b rest ihb =>
    intro st
    simp only [runBrowsers]
    rw [runAttempts_all_fail oracle h 3]
    obtain ⟨h1, h2, h3, h4⟩ := ihb
      { st with cfg := { st.cfg with browser := b },
                processCalls := st.processCalls + 3, idx := st.idx + 3 }
    refine ⟨h1, ?_, h3, h4⟩
    rw [h2]
    simp [List.length_cons]
    ring

/-- C4 amended: in the source, every exception raised by the page processor
— tagged retryable or not — consumes a tenacity retry attempt (the attempt
context swallows it and the default predicate retries any exception); a task
failing every attempt on every browser of the fallback list performs exactly
three processor calls per browser, is dead-lettered only once with the final
`All retries failed` entry, and records no per-failure breaker or DLQ effect
along the way. -/
theorem c4_every_failure_consumes_attempts (cfg : ScraperConfig)
    (oracle : Nat → AttemptOutcome)
    (h : ∀ n, oracle n = .retryableExc ∨ oracle n = .terminalExc) :
    (scrape_with_retry cfg oracle).1 = false ∧
    (scrape_with_retry cfg oracle).2.processCalls = 3 * (browsersToTry cfg).length ∧
    (scrape_with_retry cfg oracle).2.dlq = ["All retries failed"] ∧
    (scrape_with_retry cfg oracle).2.breakerFailures = 0 := by
  unfold scrape_with_retry
  obtain ⟨h1, h2, h3, h4⟩ := runBrowsers_all_fail oracle h (browsersToTry cfg)
    { cfg := cfg, breakerFailures := 0, breakerSuccesses := 0, dlq := [],
      processCalls := 0, idx := 0 }
  exact ⟨h1, by rw [h2]; simp, by rw [h3]; rfl, h4⟩

/-- Witness for the amended C4 on an all-retryable oracle under the chrome
configuration. -/
theorem c4_every_failure_consumes_attempts_witness :
    (scrape_with_retry cfgEx allRetryable).1 = false ∧
    (scrape_with_retry cfgEx allRetryable).2.processCalls =
      3 * (browsersToTry cfgEx).length ∧
    (scrape_with_retry cfgEx allRetryable).2.dlq = ["All retries failed"] ∧
    (scrape_with_retry cfgEx allRetryable).2.breakerFailures = 0 :=
  c4_every_failure_consumes_attempts cfgEx allRetryable (fun _ => Or.inl rfl)
